import Mathlib

/-!
Shallow embedding of the alulapy client library (src/alulapy/client.py,
models.py, const.py, exceptions.py) and proofs about its token lifecycle,
request pipeline, RPC gateway, zone reconciliation and model decoding.

Time is modelled as an integer number of seconds (the code uses
time.time(), a wall-clock float; no property here depends on sub-second
resolution).  Network I/O is modelled by passing the transport's behaviour
in explicitly: an environment supplies the HTTP response (or transport
error) for each attempt and the outcome of an OAuth2 token exchange.
Python exceptions become an error type threaded through Except; a
Python value that is checked for truthiness is modelled as an Option
with the corresponding truthiness test.
-/

set_option autoImplicit false

namespace Alulapy

/-! ### Constants (const.py) -/

def TOKEN_EXPIRES_IN_DEFAULT : Int := 900

def TOKEN_REFRESH_BUFFER : Int := 180

/-! ### Errors (exceptions.py)

AlulaAuthError, AlulaApiError (which carries an optional status code) and
AlulaConnectionError, as one closed error type. -/

inductive AlulaErr where
  | authError (msg : String)
  | apiError (msg : String) (statusCode : Option Int)
  | connectionError (msg : String)
  deriving Repr, DecidableEq

/-! ### Token state (client.py `__init__`, properties) -/

/-- TokenInfo dataclass (models.py). -/
structure TokenInfo where
  access_token : String
  refresh_token : String
  expires_in : Int
  token_type : String
  scope : String
  deriving Repr, DecidableEq

/-- The client's mutable token fields: _access_token, _refresh_token,
_token_expiry. -/
structure TokenState where
  accessToken : Option String
  refreshToken : Option String
  tokenExpiry : Int
  deriving Repr, DecidableEq

/-- State of a freshly constructed client: no tokens, expiry 0.0. -/
def initState : TokenState :=
  { accessToken := none, refreshToken := none, tokenExpiry := 0 }

/-- Python truthiness of a str-or-None value: None and the empty string
are falsy. -/
def strTruthy : Option String → Bool
  | none => false
  | some s => s ≠ ""

/-- Property is_authenticated: the access token is not None and
now < expiry - TOKEN_REFRESH_BUFFER. -/
def is_authenticated (now : Int) (st : TokenState) : Bool :=
  st.accessToken.isSome && decide (now < st.tokenExpiry - TOKEN_REFRESH_BUFFER)

/-- restore_tokens: sets both tokens and clamps the effective remaining
lifetime to min(expires_in, 300) seconds from now.  A pure state update;
the second component counts the network calls it issues (none — the
method body is a plain assignment). -/
def restore_tokens (now : Int) (access_token refresh_token : String)
    (expires_in : Int) (_st : TokenState) : TokenState × Nat :=
  ({ accessToken := some access_token
     refreshToken := some refresh_token
     tokenExpiry := now + min expires_in 300 }, 0)

/-! ### Token exchange (client.py `_token_request`, `async_refresh`,
`_ensure_token`)

The OAuth2 endpoint's behaviour is supplied as
exchange : Except AlulaErr TokenInfo — the classified outcome
_token_request would produce (AuthError on 400/401, ConnectionError on
transport failure, or a TokenInfo).  On success _token_request overwrites
all three token fields as one unit. -/

/-- Result of an operation that may refresh the stored token: its outcome,
the token state afterwards, the number of network calls issued, and the
number of times the stored token triple was overwritten. -/
structure RefreshResult where
  outcome : Except AlulaErr TokenInfo
  state : TokenState
  networkCalls : Nat
  tokenUpdates : Nat
  deriving Repr

/-- State overwrite done by a successful _token_request:
access/refresh tokens and expiry = now + expires_in. -/
def applyTokenInfo (now : Int) (ti : TokenInfo) (_st : TokenState) : TokenState :=
  { accessToken := some ti.access_token
    refreshToken := some ti.refresh_token
    tokenExpiry := now + ti.expires_in }

/-- Model of _token_request: one network call to the token endpoint; on success the
stored token triple is replaced wholesale. -/
def token_request (now : Int) (exchange : Except AlulaErr TokenInfo)
    (st : TokenState) : RefreshResult :=
  match exchange with
  | .error e => { outcome := .error e, state := st, networkCalls := 1, tokenUpdates := 0 }
  | .ok ti =>
      { outcome := .ok ti, state := applyTokenInfo now ti st
        networkCalls := 1, tokenUpdates := 1 }

/-- async_refresh: token = refresh_token or self._refresh_token; if that is
falsy, raise AlulaAuthError("No refresh token available") without any
network call; otherwise run the refresh_token-grant exchange. -/
def async_refresh (now : Int) (exchange : Except AlulaErr TokenInfo)
    (refresh_token : Option String) (st : TokenState) : RefreshResult :=
  let token := if strTruthy refresh_token then refresh_token else st.refreshToken
  if strTruthy token then
    token_request now exchange st
  else
    { outcome := .error (.authError "No refresh token available")
      state := st, networkCalls := 0, tokenUpdates := 0 }

/-- Result of _ensure_token: either unit or an error, plus the state and
effect counters. -/
structure EnsureResult where
  outcome : Except AlulaErr Unit
  state : TokenState
  networkCalls : Nat
  tokenUpdates : Nat
  deriving Repr

/-- Model of _ensure_token: if is_authenticated, done; else if a refresh token is
stored, refresh; else AlulaAuthError telling the caller to log in. -/
def ensure_token (now : Int) (exchange : Except AlulaErr TokenInfo)
    (st : TokenState) : EnsureResult :=
  if is_authenticated now st then
    { outcome := .ok (), state := st, networkCalls := 0, tokenUpdates := 0 }
  else if strTruthy st.refreshToken then
    let r := async_refresh now exchange none st
    { outcome := r.outcome.map fun _ => ()
      state := r.state, networkCalls := r.networkCalls, tokenUpdates := r.tokenUpdates }
  else
    { outcome := .error (.authError
        "Access token expired and no refresh token available. Call async_login() first.")
      state := st, networkCalls := 0, tokenUpdates := 0 }

/-! ### Request pipeline (client.py `_request`)

Each session.request call is modelled by the environment's http function:
attempt number ↦ either a transport error (an aiohttp.ClientError,
represented by its message) or an HTTP response.  raise_for_status()
raises aiohttp.ClientResponseError — a subclass of aiohttp.ClientError —
for every status ≥ 400, so in the pipeline's try/except it is caught by
the aiohttp.ClientError handler and re-raised as AlulaConnectionError. -/

/-- An HTTP response: status plus the decoded JSON body. -/
structure HttpResponse (β : Type) where
  status : Nat
  body : β
  deriving Repr, DecidableEq

/-- Transport behaviour for one _request call: the outcome of the n-th
session.request (0-based), and the token-endpoint behaviour used by any
refresh performed along the way. -/
structure ReqEnv (β : Type) where
  http : Nat → Except String (HttpResponse β)
  exchange : Except AlulaErr TokenInfo

/-- Result of a _request call: its outcome, the token state afterwards, the
number of HTTP attempts made against the target url, the Bearer tokens
used by those attempts in order, and the number of stored-token updates. -/
structure RequestResult (β : Type) where
  outcome : Except AlulaErr β
  state : TokenState
  httpAttempts : Nat
  authTokens : List (Option String)
  tokenUpdates : Nat

/-- Message of the AlulaConnectionError raised by _request's
aiohttp.ClientError handler. -/
def connErrMsg (method path errStr : String) : String :=
  s!"Connection error: {method} {path}: {errStr}"

/-- Rendering of the aiohttp.ClientResponseError that raise_for_status()
raises for a status ≥ 400 (stands in for aiohttp's message text). -/
def raiseForStatusErrStr (status : Nat) : String :=
  s!"ClientResponseError(status={status})"

/-- Model of _request: ensure a valid token; issue the request with the current
access token; on 401 refresh once unconditionally and retry once with the
new token (a second 401 is AlulaAuthError("Authentication failed after
refresh")); any raise_for_status failure is caught by the ClientError
handler and wrapped as AlulaConnectionError; AlulaAuthError and
AlulaConnectionError raised by the refresh propagate unchanged. -/
def request {β : Type} (method path : String) (now : Int) (env : ReqEnv β)
    (st₀ : TokenState) : RequestResult β :=
  let e := ensure_token now env.exchange st₀
  match e.outcome with
  | .error err =>
      { outcome := .error err, state := e.state, httpAttempts := 0
        authTokens := [], tokenUpdates := e.tokenUpdates }
  | .ok _ =>
    let st₁ := e.state
    match env.http 0 with
    | .error terr =>
        { outcome := .error (.connectionError (connErrMsg method path terr))
          state := st₁, httpAttempts := 1, authTokens := [st₁.accessToken]
          tokenUpdates := e.tokenUpdates }
    | .ok resp =>
      if resp.status = 401 then
        let r := async_refresh now env.exchange none st₁
        match r.outcome with
        | .error err =>
            { outcome := .error err, state := r.state, httpAttempts := 1
              authTokens := [st₁.accessToken]
              tokenUpdates := e.tokenUpdates + r.tokenUpdates }
        | .ok _ =>
          let st₂ := r.state
          match env.http 1 with
          | .error terr =>
              { outcome := .error (.connectionError (connErrMsg method path terr))
                state := st₂, httpAttempts := 2
                authTokens := [st₁.accessToken, st₂.accessToken]
                tokenUpdates := e.tokenUpdates + r.tokenUpdates }
          | .ok retry =>
            if retry.status = 401 then
              { outcome := .error (.authError "Authentication failed after refresh")
                state := st₂, httpAttempts := 2
                authTokens := [st₁.accessToken, st₂.accessToken]
                tokenUpdates := e.tokenUpdates + r.tokenUpdates }
            else if 400 ≤ retry.status then
              { outcome := .error (.connectionError
                  (connErrMsg method path (raiseForStatusErrStr retry.status)))
                state := st₂, httpAttempts := 2
                authTokens := [st₁.accessToken, st₂.accessToken]
                tokenUpdates := e.tokenUpdates + r.tokenUpdates }
            else
              { outcome := .ok retry.body, state := st₂, httpAttempts := 2
                authTokens := [st₁.accessToken, st₂.accessToken]
                tokenUpdates := e.tokenUpdates + r.tokenUpdates }
      else if 400 ≤ resp.status then
        { outcome := .error (.connectionError
            (connErrMsg method path (raiseForStatusErrStr resp.status)))
          state := st₁, httpAttempts := 1, authTokens := [st₁.accessToken]
          tokenUpdates := e.tokenUpdates }
      else
        { outcome := .ok resp.body, state := st₁, httpAttempts := 1
          authTokens := [st₁.accessToken], tokenUpdates := e.tokenUpdates }

/-! ### RPC gateway (client.py `_rpc`, `_helix_command`)

A decoded JSON-RPC response body: optionally an "error" object (with its
optional "code" and its textual rendering) and optionally a "result"
object.  Result objects are modelled as JSON-object stand-ins
(string-keyed association lists). -/

/-- A generic JSON object value, as far as the RPC layer inspects it. -/
def RpcObj := List (String × String)
deriving instance Repr, DecidableEq for RpcObj

/-- The "error" member of a JSON-RPC response: err.get("code") and the
str(err) rendering interpolated into the ApiError message. -/
structure RpcError where
  code : Option Int
  rendered : String
  deriving Repr, DecidableEq

/-- A decoded JSON-RPC response body. -/
structure RpcBody where
  error : Option RpcError
  result : Option RpcObj
  deriving Repr, DecidableEq

/-- Message of the AlulaApiError raised by _rpc for an RPC-level error. -/
def rpcErrMsg (rpc_method rendered : String) : String :=
  s!"RPC error ({rpc_method}): {rendered}"

/-- Model of _rpc after the POST: given the outcome of _request on the envelope, if
the body has an "error" member raise AlulaApiError with the RPC error's
code as status_code; otherwise return the "result" member, defaulting to
an empty object. -/
def rpc (rpc_method : String) (reqOutcome : Except AlulaErr RpcBody) :
    Except AlulaErr RpcObj :=
  match reqOutcome with
  | .error e => .error e
  | .ok body =>
    match body.error with
    | some err => .error (.apiError (rpcErrMsg rpc_method err.rendered) err.code)
    | none => .ok (body.result.getD [])

/-- Message of the rewritten AlulaApiError raised by _helix_command when the
RPC fails with code 6. -/
def interactiveDisabledMsg (device_id : String) : String :=
  "Arm/disarm command denied: interactiveEnabled is off on device " ++ device_id ++
    ". Contact your alarm provider (e.g., Cove support) and ask them to enable " ++
    "interactive services on your device."

/-- Model of _helix_command: delegate to _rpc("helix.command", ...); if that raises
an AlulaApiError whose status_code == 6, re-raise with the actionable
interactive-services message, preserving code 6; every other outcome
propagates unchanged. -/
def helix_command (device_id _data : String)
    (reqOutcome : Except AlulaErr RpcBody) : Except AlulaErr RpcObj :=
  match rpc "helix.command" reqOutcome with
  | .error (.apiError msg code) =>
      if code = some 6 then
        .error (.apiError (interactiveDisabledMsg device_id) (some 6))
      else
        .error (.apiError msg code)
  | other => other

/-! ### Enums (const.py) -/

/-- DeviceType StrEnum. -/
inductive DeviceType where
  | panel
  | camera
  | unknown
  deriving Repr, DecidableEq

/-- ArmingState StrEnum. -/
inductive ArmingState where
  | disarmed
  | armed_stay
  | armed_away
  | armed_night
  | unknown
  deriving Repr, DecidableEq

/-- ArmingState(value): the StrEnum constructor, None when the string is
not a member's value (Python raises ValueError there). -/
def ArmingState.ofValue? : String → Option ArmingState
  | "disarm" => some .disarmed
  | "armstay" => some .armed_stay
  | "armaway" => some .armed_away
  | "armnight" => some .armed_night
  | "unknown" => some .unknown
  | _ => none

/-! ### Device (models.py)

The attributes dict of a device record, restricted to the keys
Device.from_api reads.  A key that may be absent is an Option; .get with
a default becomes getD.  Bool-or-absent values checked for truthiness
(isPanel, isCamera) are Option Bool with truthiness getD false. -/

/-- Attribute dict of a device API record. -/
structure DeviceAttrs where
  isPanel : Option Bool
  isCamera : Option Bool
  armingLevel : Option String
  friendlyName : Option String
  sn : Option String
  mac : Option String
  connectedPanel : Option String
  timezone : Option String
  onlineStatus : Option Bool
  onlineStatusTimestamp : Option String
  lastArmedAt : Option String
  lastDisarmedAt : Option String
  anyTrouble : Option Bool
  acFailure : Option Bool
  lowBattery : Option Bool
  serverCommFail : Option Bool
  csCommFail : Option Bool
  lowBatteryZones : Option Bool
  tamperZones : Option Bool
  alarmZones : Option Bool
  troubleZones : Option Bool
  fireTrouble : Option Bool
  armingProtest : Option Bool
  featuresSelected : Option (List (String × Bool))
  deriving Repr, DecidableEq

/-- An attributes dict with every modelled key absent. -/
def DeviceAttrs.empty : DeviceAttrs :=
  { isPanel := none, isCamera := none, armingLevel := none, friendlyName := none
    sn := none, mac := none, connectedPanel := none, timezone := none
    onlineStatus := none, onlineStatusTimestamp := none, lastArmedAt := none
    lastDisarmedAt := none, anyTrouble := none, acFailure := none
    lowBattery := none, serverCommFail := none, csCommFail := none
    lowBatteryZones := none, tamperZones := none, alarmZones := none
    troubleZones := none, fireTrouble := none, armingProtest := none
    featuresSelected := none }

/-- A device API record: its id and its attributes dict (either may be
absent). -/
structure DeviceData where
  id : Option String
  attributes : Option DeviceAttrs
  deriving Repr, DecidableEq

/-- Device dataclass (models.py); the raw passthrough field is the source
record itself. -/
structure Device where
  id : String
  name : String
  serial_number : String
  mac_address : Option String
  device_type : DeviceType
  connected_panel_type : Option String
  timezone : String
  online : Bool
  online_timestamp : Option String
  arming_state : ArmingState
  last_armed_at : Option String
  last_disarmed_at : Option String
  any_trouble : Bool
  ac_failure : Bool
  low_battery : Bool
  server_comm_fail : Bool
  cs_comm_fail : Bool
  low_battery_zones : Bool
  tamper_zones : Bool
  alarm_zones : Bool
  trouble_zones : Bool
  fire_trouble : Bool
  arming_protest : Bool
  features : List (String × Bool)
  raw : DeviceData
  deriving Repr, DecidableEq

/-- Property Device.is_panel. -/
def Device.is_panel (d : Device) : Bool :=
  d.device_type = DeviceType.panel

/-- Property Device.is_camera. -/
def Device.is_camera (d : Device) : Bool :=
  d.device_type = DeviceType.camera

/-- Property Device.is_armed: armed in any of stay/away/night mode. -/
def Device.is_armed (d : Device) : Bool :=
  d.arming_state = ArmingState.armed_stay ∨
    d.arming_state = ArmingState.armed_away ∨
    d.arming_state = ArmingState.armed_night

/-- Device.from_api: isPanel takes precedence over isCamera, otherwise
unknown; armingLevel parses through ArmingState with falsy and
unrecognized values mapping to UNKNOWN (try/except ValueError); all other
fields decode with their .get defaults. -/
def Device.from_api (data : DeviceData) : Device :=
  let attrs := data.attributes.getD DeviceAttrs.empty
  let device_type :=
    if attrs.isPanel.getD false then DeviceType.panel
    else if attrs.isCamera.getD false then DeviceType.camera
    else DeviceType.unknown
  let arming_state :=
    match attrs.armingLevel with
    | none => ArmingState.unknown
    | some raw =>
        if raw = "" then ArmingState.unknown
        else (ArmingState.ofValue? raw).getD ArmingState.unknown
  { id := data.id.getD ""
    name := attrs.friendlyName.getD "Unknown Device"
    serial_number := attrs.sn.getD ""
    mac_address := attrs.mac
    device_type := device_type
    connected_panel_type := attrs.connectedPanel
    timezone := attrs.timezone.getD "UTC"
    online := attrs.onlineStatus.getD false
    online_timestamp := attrs.onlineStatusTimestamp
    arming_state := arming_state
    last_armed_at := attrs.lastArmedAt
    last_disarmed_at := attrs.lastDisarmedAt
    any_trouble := attrs.anyTrouble.getD false
    ac_failure := attrs.acFailure.getD false
    low_battery := attrs.lowBattery.getD false
    server_comm_fail := attrs.serverCommFail.getD false
    cs_comm_fail := attrs.csCommFail.getD false
    low_battery_zones := attrs.lowBatteryZones.getD false
    tamper_zones := attrs.tamperZones.getD false
    alarm_zones := attrs.alarmZones.getD false
    trouble_zones := attrs.troubleZones.getD false
    fire_trouble := attrs.fireTrouble.getD false
    arming_protest := attrs.armingProtest.getD false
    features := attrs.featuresSelected.getD []
    raw := data }

/-! ### Zones (models.py ZoneStatus/Zone, client.py
`async_ensure_zone_subscriptions`) -/

/-- ZoneStatus dataclass. -/
structure ZoneStatus where
  name : String
  is_active : Bool
  deriving Repr, DecidableEq

/-- Zone dataclass, restricted to the fields the reconciler reads. -/
structure Zone where
  id : String
  device_id : String
  zone_index : Int
  status : ZoneStatus
  push_enabled : Bool
  zone_name : Option String
  device_type_hint : Option String
  deriving Repr, DecidableEq

/-- The uniqueness key set built by async_ensure_zone_subscriptions from
the fetched existing subscriptions. -/
def existingKeys (existing : List Zone) : List (String × Int × Bool) :=
  existing.map fun z => (z.device_id, z.zone_index, z.status.is_active)

/-- Result of async_ensure_zone_subscriptions: the returned count of
subscriptions created, and the create-subscription requests issued, as
(zone_index, status_on) pairs in issue order. -/
structure EnsureSubsResult where
  created : Nat
  issued : List (Int × Bool)
  deriving Repr, DecidableEq

/-- The (zone_idx, status_on) iteration of the subscription loop:
status_on runs over (True, False) inside each zone index. -/
def subscriptionPairs (zone_indices : List Int) : List (Int × Bool) :=
  zone_indices.flatMap fun zone_idx => [(zone_idx, true), (zone_idx, false)]

/-- Loop body of async_ensure_zone_subscriptions over the iteration pairs:
skip when the key is already present; otherwise issue the create, counting
it when the POST succeeds and swallowing (logging only) any exception,
modelled by createSucceeds. -/
def ensureSubsLoop (device_id : String) (keys : List (String × Int × Bool))
    (createSucceeds : Int → Bool → Bool) : List (Int × Bool) → EnsureSubsResult
  | [] => { created := 0, issued := [] }
  | (zone_idx, status_on) :: rest =>
    let r := ensureSubsLoop device_id keys createSucceeds rest
    if (device_id, zone_idx, status_on) ∈ keys then r
    else if createSucceeds zone_idx status_on then
      { created := r.created + 1, issued := (zone_idx, status_on) :: r.issued }
    else
      { created := r.created, issued := (zone_idx, status_on) :: r.issued }

/-- async_ensure_zone_subscriptions: build the existing key set from the
fetched subscriptions, then run the create loop. -/
def ensure_zone_subscriptions (device_id : String) (zone_indices : List Int)
    (existing : List Zone) (createSucceeds : Int → Bool → Bool) : EnsureSubsResult :=
  ensureSubsLoop device_id (existingKeys existing) createSucceeds
    (subscriptionPairs zone_indices)

/-! ### Zone discovery (client.py `async_discover_zones`)

An event-log entry's attributes dict, restricted to the keys the scanner
reads; the scan accumulates an insertion-ordered mapping
zone_index ↦ \x7bzone_name, zone_type\x7d. -/

/-- Attribute dict of an event-log entry, as read by the zone scanner. -/
structure EventLogAttrs where
  signalUserZone : Option String
  signalUserZoneAlias : Option String
  signalUserZoneType : Option String
  deriving Repr, DecidableEq

/-- The value stored per discovered zone. -/
structure ZoneInfo where
  zone_name : Option String
  zone_type : String
  deriving Repr, DecidableEq

/-- The dict value built from an entry's attributes. -/
def zoneInfoOf (attrs : EventLogAttrs) : ZoneInfo :=
  { zone_name := attrs.signalUserZoneAlias
    zone_type := attrs.signalUserZoneType.getD "" }

/-- Lookup in the insertion-ordered mapping. -/
def lookupZone : List (Nat × ZoneInfo) → Nat → Option ZoneInfo
  | [], _ => none
  | (k, v) :: rest, key => if k = key then some v else lookupZone rest key

/-- Decimal value of a digit string, as computed by Python's int(). -/
def strToNat (s : String) : Nat :=
  s.data.foldl (fun n c => 10 * n + (c.toNat - Char.toNat '0')) 0

/-- The zone index an entry contributes: zone_str = attrs.get(
"signalUserZone", ""); skipped unless non-empty and all digits
(str.isdigit), then decoded with int(). -/
def entryZoneIdx? (attrs : EventLogAttrs) : Option Nat :=
  let zone_str := attrs.signalUserZone.getD ""
  if zone_str = "" ∨ ¬ (zone_str.data.all Char.isDigit) then none
  else some (strToNat zone_str)

/-- Scan loop of async_discover_zones: entries are visited newest-first;
an entry is skipped when its index is invalid, zero, or already present;
otherwise its info is inserted (Python dicts keep insertion order). -/
def discoverLoop : List EventLogAttrs → List (Nat × ZoneInfo) → List (Nat × ZoneInfo)
  | [], zones => zones
  | attrs :: rest, zones =>
    match entryZoneIdx? attrs with
    | none => discoverLoop rest zones
    | some zone_idx =>
      if zone_idx = 0 ∨ (lookupZone zones zone_idx).isSome then
        discoverLoop rest zones
      else
        discoverLoop rest (zones ++ [(zone_idx, zoneInfoOf attrs)])

/-- async_discover_zones on the fetched page of event-log entries
(newest first). -/
def discover_zones (entries : List EventLogAttrs) : List (Nat × ZoneInfo) :=
  discoverLoop entries []

/-- Environment for the C1 witness: a 401 on the first attempt, 200 with
body 7 on the retry, and a token endpoint handing out fresh tokens. -/
def c1Env : ReqEnv Nat :=
  { http := fun n => if n = 0 then .ok { status := 401, body := 0 }
      else .ok { status := 200, body := 7 }
    exchange := .ok ⟨"newacc", "newref", 900, "bearer", ""⟩ }

/-- Client state for the C1 witness: authenticated, with a stored refresh
token. -/
def c1St : TokenState :=
  { accessToken := some "oldacc", refreshToken := some "oldref", tokenExpiry := 10000 }

/-- Environment for the C2 evaluation: the first attempt yields an HTTP 500
response; nothing else is consulted. -/
def c2Env : ReqEnv String :=
  { http := fun n => if n = 0 then .ok { status := 500, body := "server broke" }
      else .error "unused"
    exchange := .error (.authError "unused") }

/-- Client state for the C2 evaluation: authenticated. -/
def c2St : TokenState :=
  { accessToken := some "tok", refreshToken := some "ref", tokenExpiry := 100000 }

/-! ## Theorems -/

/-- C5: is_authenticated holds exactly when an access token is present and
the current time is earlier than the recorded expiry minus the 180-second
refresh buffer; a freshly constructed client has neither token and reports
not-authenticated; a token set to expire within the buffer window reports
not-authenticated. -/
theorem c5_is_authenticated_iff :
    (∀ (now : Int) (st : TokenState),
        is_authenticated now st = true ↔
          st.accessToken.isSome = true ∧
            now < st.tokenExpiry - TOKEN_REFRESH_BUFFER) ∧
    initState.accessToken = none ∧ initState.refreshToken = none ∧
    (∀ now : Int, is_authenticated now initState = false) ∧
    (∀ (now : Int) (st : TokenState),
        st.tokenExpiry ≤ now + TOKEN_REFRESH_BUFFER →
        is_authenticated now st = false) := by
  refine ⟨?_, rfl, rfl, ?_, ?_⟩
  · intro now st
    simp [is_authenticated]
  · intro now
    simp [is_authenticated, initState]
  · intro now st h
    simp only [is_authenticated, Bool.and_eq_false_imp, decide_eq_false_iff_not]
    intro _
    simp only [TOKEN_REFRESH_BUFFER] at h ⊢
    omega

/-- Witness for C5: a token expiring 100 seconds from now (inside the
180-second buffer) is not authenticated. -/
theorem c5_witness :
    is_authenticated 1000
      { accessToken := some "tok", refreshToken := none, tokenExpiry := 1100 } = false :=
  c5_is_authenticated_iff.2.2.2.2 1000
    { accessToken := some "tok", refreshToken := none, tokenExpiry := 1100 }
    (by decide)

/-- C6: restore_tokens stores exactly the supplied tokens, clamps the
expiry to at most 300 seconds in the future (in particular expires_in =
9999 yields exactly now + 300), and issues no network call. -/
theorem c6_restore_tokens_clamps :
    ∀ (now : Int) (a r : String) (expires_in : Int) (st : TokenState),
      (restore_tokens now a r expires_in st).1.accessToken = some a ∧
      (restore_tokens now a r expires_in st).1.refreshToken = some r ∧
      (restore_tokens now a r expires_in st).1.tokenExpiry ≤ now + 300 ∧
      (restore_tokens now a r 9999 st).1.tokenExpiry = now + 300 ∧
      (restore_tokens now a r expires_in st).2 = 0 := by
  intro now a r expires_in st
  refine ⟨rfl, rfl, ?_, ?_, rfl⟩
  · simp only [restore_tokens]
    have : min expires_in 300 ≤ 300 := min_le_right _ _
    omega
  · simp [restore_tokens]

/-- C7: async_refresh with no explicit token and no stored refresh token
fails with AlulaAuthError("No refresh token available"), leaves the state
unchanged and issues no network call. -/
theorem c7_refresh_without_token_fails :
    ∀ (now : Int) (exchange : Except AlulaErr TokenInfo) (st : TokenState),
      st.refreshToken = none →
      async_refresh now exchange none st =
        { outcome := .error (.authError "No refresh token available")
          state := st, networkCalls := 0, tokenUpdates := 0 } := by
  intro now exchange st h
  simp [async_refresh, strTruthy, h]

/-- Witness for C7: a fresh client has no refresh token, so refresh fails
without touching the network. -/
theorem c7_witness :
    async_refresh 0 (.error (.connectionError "unused")) none initState =
      { outcome := .error (.authError "No refresh token available")
        state := initState, networkCalls := 0, tokenUpdates := 0 } :=
  c7_refresh_without_token_fails 0 (.error (.connectionError "unused")) initState rfl

/-- C9: a record with isPanel=true and armingLevel="armstay" decodes to a
panel device that reports armed; any unrecognized armingLevel value
decodes to the unknown arming state (Device.from_api is total, so a
Device is always returned). -/
theorem c9_device_from_api_decoding :
    (∀ (data : DeviceData) (attrs : DeviceAttrs),
        data.attributes = some attrs → attrs.isPanel = some true →
        attrs.armingLevel = some "armstay" →
        (Device.from_api data).device_type = DeviceType.panel ∧
        (Device.from_api data).is_panel = true ∧
        (Device.from_api data).is_armed = true) ∧
    (∀ (data : DeviceData) (attrs : DeviceAttrs) (raw : String),
        data.attributes = some attrs → attrs.armingLevel = some raw →
        ArmingState.ofValue? raw = none →
        (Device.from_api data).arming_state = ArmingState.unknown) := by
  constructor
  · intro data attrs hattrs hpanel harm
    refine ⟨?_, ?_, ?_⟩ <;>
      simp [Device.from_api, Device.is_panel, Device.is_armed, hattrs, hpanel, harm,
        ArmingState.ofValue?]
  · intro data attrs raw hattrs harm hval
    by_cases hraw : raw = ""
    · simp [Device.from_api, hattrs, harm, hraw]
    · simp [Device.from_api, hattrs, harm, hraw, hval]

/-- Witness for C9: a concrete panel record armed in stay mode decodes to
an armed panel. -/
theorem c9_witness :
    (Device.from_api
      { id := some "dev-1"
        attributes := some { DeviceAttrs.empty with
          isPanel := some true, armingLevel := some "armstay" } }).is_armed = true :=
  (c9_device_from_api_decoding.1
    { id := some "dev-1"
      attributes := some { DeviceAttrs.empty with
        isPanel := some true, armingLevel := some "armstay" } }
    { DeviceAttrs.empty with isPanel := some true, armingLevel := some "armstay" }
    rfl rfl rfl).2.2

/-- C10: from_api assigns exactly one device type, so is_panel and
is_camera are never both true; when both isPanel and isCamera are true in
the record, isPanel takes precedence and the device is a panel. -/
theorem c10_device_type_exclusive :
    (∀ data : DeviceData,
        ¬((Device.from_api data).is_panel = true ∧
          (Device.from_api data).is_camera = true)) ∧
    (∀ (data : DeviceData) (attrs : DeviceAttrs),
        data.attributes = some attrs → attrs.isPanel = some true →
        attrs.isCamera = some true →
        (Device.from_api data).device_type = DeviceType.panel) := by
  constructor
  · intro data h
    obtain ⟨hp, hc⟩ := h
    simp only [Device.is_panel, Device.is_camera, Device.from_api,
      decide_eq_true_eq] at hp hc
    rw [hp] at hc
    exact DeviceType.noConfusion hc
  · intro data attrs hattrs hpanel _
    simp [Device.from_api, hattrs, hpanel]

/-- Witness for C10: a record marking both isPanel and isCamera decodes as
a panel. -/
theorem c10_witness :
    (Device.from_api
      { id := some "dev-2"
        attributes := some { DeviceAttrs.empty with
          isPanel := some true, isCamera := some true } }).device_type =
      DeviceType.panel :=
  c10_device_type_exclusive.2
    { id := some "dev-2"
      attributes := some { DeviceAttrs.empty with
        isPanel := some true, isCamera := some true } }
    { DeviceAttrs.empty with isPanel := some true, isCamera := some true }
    rfl rfl rfl

/-- C8: an RPC response body carrying an error member makes _rpc fail with
AlulaApiError whose status_code is the error's code; a helix.command
failure with code 6 surfaces the rewritten interactive-services message
(which literally contains "interactive services") with code 6 preserved;
an RPC error with any other code propagates unchanged through
_helix_command. -/
theorem c8_rpc_error_codes :
    (∀ (rpc_method : String) (body : RpcBody) (err : RpcError),
        body.error = some err →
        rpc rpc_method (.ok body) =
          .error (.apiError (rpcErrMsg rpc_method err.rendered) err.code)) ∧
    (∀ (device_id data : String) (body : RpcBody) (err : RpcError),
        body.error = some err → err.code = some 6 →
        helix_command device_id data (.ok body) =
          .error (.apiError (interactiveDisabledMsg device_id) (some 6))) ∧
    (∀ device_id : String, ∃ pre post : String,
        interactiveDisabledMsg device_id = pre ++ "interactive services" ++ post) ∧
    (∀ (device_id data : String) (body : RpcBody) (err : RpcError),
        body.error = some err → err.code ≠ some 6 →
        helix_command device_id data (.ok body) =
          rpc "helix.command" (.ok body)) := by
  refine ⟨?_, ?_, ?_, ?_⟩
  · intro rpc_method body err herr
    simp [rpc, herr]
  · intro device_id data body err herr hcode
    simp [helix_command, rpc, herr, hcode]
  · intro device_id
    refine ⟨"Arm/disarm command denied: interactiveEnabled is off on device " ++
      device_id ++
      ". Contact your alarm provider (e.g., Cove support) and ask them to enable ",
      " on your device.", ?_⟩
    simp only [interactiveDisabledMsg, String.append_assoc]
    rfl
  · intro device_id data body err herr hcode
    simp [helix_command, rpc, herr, hcode]

/-- Witness for C8: a helix.command body whose error carries code 6 yields
the rewritten ApiError with status code 6. -/
theorem c8_witness :
    helix_command "panel-1" "armStay"
      (.ok { error := some { code := some 6, rendered := "denied" }, result := none }) =
      .error (.apiError (interactiveDisabledMsg "panel-1") (some 6)) :=
  c8_rpc_error_codes.2.1 "panel-1" "armStay"
    { error := some { code := some 6, rendered := "denied" }, result := none }
    { code := some 6, rendered := "denied" } rfl rfl

/-- The subscription loop issues a create exactly for the pairs whose key
is absent, and counts exactly the creates that succeed. -/
theorem ensureSubsLoop_spec (device_id : String) (keys : List (String × Int × Bool))
    (createSucceeds : Int → Bool → Bool) :
    ∀ pairs : List (Int × Bool),
      (ensureSubsLoop device_id keys createSucceeds pairs).issued =
        pairs.filter (fun p => decide ((device_id, p.1, p.2) ∉ keys)) ∧
      (ensureSubsLoop device_id keys createSucceeds pairs).created =
        (pairs.filter (fun p => decide ((device_id, p.1, p.2) ∉ keys))).countP
          (fun p => createSucceeds p.1 p.2) := by
  intro pairs
  induction pairs with
  | nil => exact ⟨rfl, rfl⟩
  | cons hd tl ih =>
    obtain ⟨zone_idx, status_on⟩ := hd
    by_cases hmem : (device_id, zone_idx, status_on) ∈ keys
    · simpa [ensureSubsLoop, hmem] using ih
    · by_cases hcs : createSucceeds zone_idx status_on
      · simp [ensureSubsLoop, hmem, List.countP_cons, hcs, ih.1, ih.2]
      · simp [ensureSubsLoop, hmem, List.countP_cons, hcs, ih.1, ih.2]

/-- C3: a create-subscription request is issued exactly for the requested
(zone index, statusOn) pairs whose key is absent from the fetched
subscriptions, the returned count is the number of creates that succeeded
(failed creates are swallowed, not counted), a call for zone 3 against an
empty feed creates exactly the on=true and on=false subscriptions and
returns 2, and a repeat call against a feed containing both creates
nothing and returns 0. -/
theorem c3_ensure_zone_subscriptions :
    (∀ (device_id : String) (zone_indices : List Int) (existing : List Zone)
        (createSucceeds : Int → Bool → Bool),
        (ensure_zone_subscriptions device_id zone_indices existing createSucceeds).issued =
          (subscriptionPairs zone_indices).filter
            (fun p => decide ((device_id, p.1, p.2) ∉ existingKeys existing)) ∧
        (ensure_zone_subscriptions device_id zone_indices existing createSucceeds).created =
          ((subscriptionPairs zone_indices).filter
            (fun p => decide ((device_id, p.1, p.2) ∉ existingKeys existing))).countP
            (fun p => createSucceeds p.1 p.2)) ∧
    (∀ device_id : String,
        ensure_zone_subscriptions device_id [3] [] (fun _ _ => true) =
          { created := 2, issued := [(3, true), (3, false)] }) ∧
    (∀ (device_id : String) (createSucceeds : Int → Bool → Bool) (z₁ z₂ : Zone),
        z₁.device_id = device_id → z₁.zone_index = 3 → z₁.status.is_active = true →
        z₂.device_id = device_id → z₂.zone_index = 3 → z₂.status.is_active = false →
        ensure_zone_subscriptions device_id [3] [z₁, z₂] createSucceeds =
          { created := 0, issued := [] }) := by
  refine ⟨?_, ?_, ?_⟩
  · intro device_id zone_indices existing createSucceeds
    exact ensureSubsLoop_spec device_id (existingKeys existing) createSucceeds
      (subscriptionPairs zone_indices)
  · intro device_id
    rfl
  · intro device_id createSucceeds z₁ z₂ hd₁ hz₁ hs₁ hd₂ hz₂ hs₂
    simp [ensure_zone_subscriptions, ensureSubsLoop, subscriptionPairs, existingKeys,
      hd₁, hz₁, hs₁, hd₂, hz₂, hs₂]

/-- Witness for C3: the repeat call against a feed already holding both
subscriptions for zone 3 creates nothing. -/
theorem c3_witness :
    ensure_zone_subscriptions "dev" [3]
      [{ id := "s1", device_id := "dev", zone_index := 3
         status := { name := "open", is_active := true }
         push_enabled := true, zone_name := none, device_type_hint := none },
       { id := "s2", device_id := "dev", zone_index := 3
         status := { name := "open", is_active := false }
         push_enabled := true, zone_name := none, device_type_hint := none }]
      (fun _ _ => true) = { created := 0, issued := [] } :=
  c3_ensure_zone_subscriptions.2.2 "dev" (fun _ _ => true)
    { id := "s1", device_id := "dev", zone_index := 3
      status := { name := "open", is_active := true }
      push_enabled := true, zone_name := none, device_type_hint := none }
    { id := "s2", device_id := "dev", zone_index := 3
      status := { name := "open", is_active := false }
      push_enabled := true, zone_name := none, device_type_hint := none }
    rfl rfl rfl rfl rfl rfl

/-- Lookup through an append of a single binding at the back: the earlier
bindings take precedence. -/
theorem lookupZone_append (l : List (Nat × ZoneInfo)) (j : Nat) (v : ZoneInfo)
    (k : Nat) :
    lookupZone (l ++ [(j, v)]) k =
      ((lookupZone l k).orElse fun _ => if j = k then some v else none) := by
  induction l with
  | nil => simp [lookupZone, Option.orElse]
  | cons hd tl ih =>
    obtain ⟨a, b⟩ := hd
    by_cases hak : a = k
    · simp [lookupZone, hak, Option.orElse]
    · simpa [lookupZone, hak, Option.orElse] using ih

/-- The discovery loop never inserts zone index 0. -/
theorem discoverLoop_lookup_zero :
    ∀ (entries : List EventLogAttrs) (acc : List (Nat × ZoneInfo)),
      lookupZone (discoverLoop entries acc) 0 = lookupZone acc 0 := by
  intro entries
  induction entries with
  | nil => intro acc; rfl
  | cons e rest ih =>
    intro acc
    simp only [discoverLoop]
    cases hz : entryZoneIdx? e with
    | none => exact ih acc
    | some j =>
      by_cases hcond : j = 0 ∨ (lookupZone acc j).isSome = true
      · simp only [hcond, if_pos]
        exact ih acc
      · simp only [hcond, if_neg, not_false_iff]
        rw [ih, lookupZone_append]
        have hj : j ≠ 0 := fun h => hcond (Or.inl h)
        simp [hj, Option.orElse]
        cases lookupZone acc 0 <;> rfl

/-- The discovery loop realizes first-occurrence-wins: looking up a
non-zero index in its result finds the accumulator's binding if present,
else the value of the first scanned entry contributing that index. -/
theorem discoverLoop_lookup (k : Nat) (hk : k ≠ 0) :
    ∀ (entries : List EventLogAttrs) (acc : List (Nat × ZoneInfo)),
      lookupZone (discoverLoop entries acc) k =
        ((lookupZone acc k).orElse fun _ =>
          (entries.find? fun e => entryZoneIdx? e == some k).map zoneInfoOf) := by
  intro entries
  induction entries with
  | nil =>
    intro acc
    simp only [discoverLoop, List.find?_nil, Option.map_none]
    cases lookupZone acc k <;> rfl
  | cons e rest ih =>
    intro acc
    simp only [discoverLoop]
    cases hz : entryZoneIdx? e with
    | none =>
      rw [ih acc]
      have hpred : (entryZoneIdx? e == some k) = false := by simp [hz]
      simp [List.find?_cons, hpred]
    | some j =>
      by_cases hjk : j = k
      · subst hjk
        have hpred : (entryZoneIdx? e == some j) = true := by simp [hz]
        by_cases hcond : j = 0 ∨ (lookupZone acc j).isSome = true
        · have hsome : (lookupZone acc j).isSome = true := hcond.resolve_left hk
          obtain ⟨v, hv⟩ := Option.isSome_iff_exists.mp hsome
          simp only [hcond, if_pos]
          rw [ih acc]
          simp [List.find?_cons, hpred, hv, Option.orElse]
        · have hnone : lookupZone acc j = none := by
            rcases h : lookupZone acc j with _ | w
            · rfl
            · exact absurd (Or.inr (by simp [h])) hcond
          simp only [hcond, if_neg, not_false_iff]
          rw [ih]
          rw [lookupZone_append, hnone]
          simp [List.find?_cons, hpred, Option.orElse]
      · have hpred : (entryZoneIdx? e == some k) = false := by simp [hz, hjk]
        by_cases hcond : j = 0 ∨ (lookupZone acc j).isSome = true
        · simp only [hcond, if_pos]
          rw [ih acc]
          simp [List.find?_cons, hpred]
        · simp only [hcond, if_neg, not_false_iff]
          rw [ih]
          rw [lookupZone_append]
          simp only [hjk, if_neg, not_false_iff]
          have : ((lookupZone acc k).orElse fun _ => none) = lookupZone acc k := by
            cases lookupZone acc k <;> rfl
          rw [this]
          simp [List.find?_cons, hpred]

/-- C4: a non-zero index in the scanned mapping resolves to the first
scanned entry whose signalUserZone is a non-empty digit string decoding to
that index; index 0 never appears; and the concrete newest-first feed with
zone-index fields 3, 3, 0, 5, "" yields exactly indices 3 and 5, each with
the name and type of its first occurrence. -/
theorem c4_discover_zones_first_wins :
    (∀ (entries : List EventLogAttrs) (k : Nat), k ≠ 0 →
        lookupZone (discover_zones entries) k =
          (entries.find? fun e => entryZoneIdx? e == some k).map zoneInfoOf) ∧
    (∀ entries : List EventLogAttrs, lookupZone (discover_zones entries) 0 = none) ∧
    (∀ (a₁ a₂ a₃ a₄ a₅ t₁ t₂ t₃ t₄ t₅ : Option String),
        discover_zones
          [{ signalUserZone := some "3", signalUserZoneAlias := a₁,
             signalUserZoneType := t₁ },
           { signalUserZone := some "3", signalUserZoneAlias := a₂,
             signalUserZoneType := t₂ },
           { signalUserZone := some "0", signalUserZoneAlias := a₃,
             signalUserZoneType := t₃ },
           { signalUserZone := some "5", signalUserZoneAlias := a₄,
             signalUserZoneType := t₄ },
           { signalUserZone := some "", signalUserZoneAlias := a₅,
             signalUserZoneType := t₅ }] =
          [(3, { zone_name := a₁, zone_type := t₁.getD "" }),
           (5, { zone_name := a₄, zone_type := t₄.getD "" })]) := by
  refine ⟨?_, ?_, ?_⟩
  · intro entries k hk
    have h := discoverLoop_lookup k hk entries []
    simpa [discover_zones, lookupZone, Option.orElse] using h
  · intro entries
    exact discoverLoop_lookup_zero entries []
  · intro a₁ a₂ a₃ a₄ a₅ t₁ t₂ t₃ t₄ t₅
    rfl

/-- Witness for C4: in a feed with two entries for zone 3, index 3 resolves
to the first entry's data. -/
theorem c4_witness :
    lookupZone
      (discover_zones
        [{ signalUserZone := some "3", signalUserZoneAlias := some "Front Door",
           signalUserZoneType := some "door" },
         { signalUserZone := some "3", signalUserZoneAlias := some "Old Name",
           signalUserZoneType := some "window" }]) 3 =
      some { zone_name := some "Front Door", zone_type := "door" } := by
  rw [c4_discover_zones_first_wins.1
    [{ signalUserZone := some "3", signalUserZoneAlias := some "Front Door",
       signalUserZoneType := some "door" },
     { signalUserZone := some "3", signalUserZoneAlias := some "Old Name",
       signalUserZoneType := some "window" }] 3 (by decide)]
  rfl

/-- C1: entering the pipeline authenticated, a 401 on the first attempt
triggers exactly one (successful) refresh and exactly one retry carrying
the new access token — two HTTP attempts total, never a third, and the
stored token updated exactly once; a 2xx retry returns the retry's body,
while a second 401 fails with AlulaAuthError("Authentication failed after
refresh"). -/
theorem c1_pipeline_401_refresh_retry {β : Type}
    (method path : String) (now : Int) (env : ReqEnv β) (st₀ : TokenState)
    (resp : HttpResponse β) (ti : TokenInfo)
    (hauth : is_authenticated now st₀ = true)
    (href : strTruthy st₀.refreshToken = true)
    (hex : env.exchange = .ok ti)
    (h0 : env.http 0 = .ok resp) (h401 : resp.status = 401) :
    (request method path now env st₀).httpAttempts = 2 ∧
    (request method path now env st₀).tokenUpdates = 1 ∧
    (request method path now env st₀).authTokens =
      [st₀.accessToken, some ti.access_token] ∧
    (request method path now env st₀).state = applyTokenInfo now ti st₀ ∧
    (∀ retry : HttpResponse β, env.http 1 = .ok retry →
        200 ≤ retry.status → retry.status < 300 →
        (request method path now env st₀).outcome = .ok retry.body) ∧
    (∀ retry : HttpResponse β, env.http 1 = .ok retry → retry.status = 401 →
        (request method path now env st₀).outcome =
          .error (.authError "Authentication failed after refresh")) := by
  have hens : ensure_token now env.exchange st₀ =
      { outcome := .ok (), state := st₀, networkCalls := 0, tokenUpdates := 0 } := by
    rw [ensure_token, if_pos hauth]
  have har : async_refresh now env.exchange none st₀ =
      { outcome := .ok ti, state := applyTokenInfo now ti st₀
        networkCalls := 1, tokenUpdates := 1 } := by
    have hn : strTruthy (none : Option String) = false := rfl
    rw [async_refresh, hex]
    simp [hn, href, token_request]
  have hreq : request method path now env st₀ =
      (match env.http 1 with
        | .error terr =>
            { outcome := .error (.connectionError (connErrMsg method path terr))
              state := applyTokenInfo now ti st₀, httpAttempts := 2
              authTokens := [st₀.accessToken, some ti.access_token]
              tokenUpdates := 1 }
        | .ok retry =>
          if retry.status = 401 then
            { outcome := .error (.authError "Authentication failed after refresh")
              state := applyTokenInfo now ti st₀, httpAttempts := 2
              authTokens := [st₀.accessToken, some ti.access_token]
              tokenUpdates := 1 }
          else if 400 ≤ retry.status then
            { outcome := .error (.connectionError
                (connErrMsg method path (raiseForStatusErrStr retry.status)))
              state := applyTokenInfo now ti st₀, httpAttempts := 2
              authTokens := [st₀.accessToken, some ti.access_token]
              tokenUpdates := 1 }
          else
            { outcome := .ok retry.body, state := applyTokenInfo now ti st₀
              httpAttempts := 2
              authTokens := [st₀.accessToken, some ti.access_token]
              tokenUpdates := 1 }) := by
    simp only [request, hens, h0, h401, har]
    rcases h1 : env.http 1 with terr | retry
    · simp [applyTokenInfo]
    · by_cases h401' : retry.status = 401
      · simp [h401', applyTokenInfo]
      · by_cases h400 : 400 ≤ retry.status
        · simp [h401', h400, applyTokenInfo]
        · simp [h401', h400, applyTokenInfo]
  rcases h1 : env.http 1 with terr | retry
  · rw [hreq, h1]
    refine ⟨by trivial, by trivial, by trivial, by trivial, ?_, ?_⟩ <;>
      · intro retry hretry
        exact absurd hretry (by simp)
  · rw [hreq, h1]
    by_cases h401' : retry.status = 401
    · simp only [h401', if_pos rfl]
      refine ⟨by trivial, by trivial, by trivial, by trivial, ?_, ?_⟩
      · intro retry' hretry hlo hhi
        injection hretry with hr
        subst hr
        omega
      · intro _ _ _
        rfl
    · by_cases h400 : 400 ≤ retry.status
      · simp only [if_neg h401', if_pos h400]
        refine ⟨by trivial, by trivial, by trivial, by trivial, ?_, ?_⟩
        · intro retry' hretry hlo hhi
          injection hretry with hr
          subst hr
          omega
        · intro retry' hretry h401''
          injection hretry with hr
          subst hr
          exact absurd h401'' h401'
      · simp only [if_neg h401', if_neg h400]
        refine ⟨by trivial, by trivial, by trivial, by trivial, ?_, ?_⟩
        · intro retry' hretry _ _
          injection hretry with hr
          subst hr
          rfl
        · intro retry' hretry h401''
          injection hretry with hr
          subst hr
          exact absurd h401'' h401'


/-- Witness for C1: on the concrete 401-then-200 transport the pipeline
makes exactly two attempts, updates the token once, sends the fresh token
on the retry and returns the retry's body. -/
theorem c1_witness :
    (request "GET" "/api/v1/devices" 0 c1Env c1St).httpAttempts = 2 ∧
    (request "GET" "/api/v1/devices" 0 c1Env c1St).tokenUpdates = 1 ∧
    (request "GET" "/api/v1/devices" 0 c1Env c1St).authTokens =
      [some "oldacc", some "newacc"] ∧
    (request "GET" "/api/v1/devices" 0 c1Env c1St).outcome = .ok 7 := by
  have h := c1_pipeline_401_refresh_retry "GET" "/api/v1/devices" 0 c1Env c1St
    { status := 401, body := 0 } ⟨"newacc", "newref", 900, "bearer", ""⟩
    (by decide) (by decide) (by rfl) (by rfl) (by rfl)
  exact ⟨h.1, h.2.1, h.2.2.1, h.2.2.2.2.1 { status := 200, body := 7 } (by rfl)
    (by decide) (by decide)⟩


/-- C2 evaluated at the failing input: an HTTP 500 response makes the
pipeline raise AlulaConnectionError (raise_for_status's
ClientResponseError is an aiohttp.ClientError, so the transport handler
wraps it), not the AlulaApiError the claim states. -/
theorem c2_http_500_wrapped_as_connection_error :
    (request "GET" "/api/v1/devices" 0 c2Env c2St).outcome =
      .error (.connectionError
        (connErrMsg "GET" "/api/v1/devices" (raiseForStatusErrStr 500))) := rfl

end Alulapy
